/-
Verification of the skynet-mvp meeting pipeline core against its
natural-language specification.

Shallow embedding of the Python sources:
  src/services/transcription_service.py  (provider order, fallback loop)
  src/services/synthesis_service.py      (synthesis orchestration)
  src/services/email_service.py          (recipient resolution, delivery status)
  src/integrations/whisper_client.py     (retry loop)
  src/integrations/openai_synthesis_client.py (validation + retry loop)
  src/integrations/smtp_client.py        (retry loop, auth short-circuit)
  src/repositories/base.py               (generic dynamic-attribute update)

Side effects are made explicit: repository state is passed in and returned,
external calls are abstract functions supplied as parameters, raised
exceptions are `Except.error`, wall-clock readings are parameters.
-/
import Mathlib

set_option autoImplicit false

namespace Skynet

/-! ### Python semantics helpers -/

/-- Embedding of Python `len(s.split())`: split on whitespace runs and count
the non-empty tokens. -/
def pyWordCount (s : String) : Nat :=
  ((s.split Char.isWhitespace).filter (fun w => w ≠ "")).length

/-- Embedding of Python `s.strip()`: remove leading and trailing whitespace
(spelled out on the character list so that it evaluates by reduction). -/
def pyStrip (s : String) : String :=
  ⟨((s.data.dropWhile Char.isWhitespace).reverse.dropWhile Char.isWhitespace).reverse⟩

/-- Embedding of Python `int(q)` on a float/rational value: truncation toward
zero. -/
def pyInt (q : ℚ) : ℤ :=
  if 0 ≤ q then q.floor else q.ceil

/-- Embedding of Python `o or d` for an optional string `o`: `None` and the
empty string are falsy. -/
def pyOrStr (o : Option String) (d : String) : String :=
  match o with
  | some s => if s = "" then d else s
  | none => d

/-! ### Data model (src/models) -/

/-- `ConversationStatus` enum from src/models/conversation.py. -/
inductive ConversationStatus
  | pending
  | transcribing
  | synthesizing
  | completed
  | failed
deriving DecidableEq, Repr

/-- `TranscriptionProvider` enum from src/services/transcription_service.py. -/
inductive TranscriptionProvider
  | soniox
  | whisper
deriving DecidableEq, Repr

/-- `Participant` row (src/models/participant.py): name and email are
non-nullable String columns; an absent address shows up as an empty string,
which is falsy in the filtering list comprehension of the email service. -/
structure Participant where
  name : String
  email : String
deriving DecidableEq, Repr

/-- `Conversation` row (src/models/conversation.py), restricted to the columns
the orchestrators read or write. -/
structure Conversation where
  id : String
  title : String
  status : ConversationStatus
  transcript : Option String
  transcript_word_count : Option Nat
  transcription_provider : Option TranscriptionProvider
  synthesis_provider : Option String
  processing_time_seconds : Option ℤ
  error_message : Option String
  participants : List Participant
deriving DecidableEq, Repr

/-- One action item extracted by the LLM (task, optional owner, optional due
date), as stored in the `action_items` JSON column. -/
structure ActionItem where
  task : String
  owner : Option String
  due_date : Option String
deriving DecidableEq, Repr

/-- `Synthesis` row (src/models/synthesis.py); nullable columns are `Option`. -/
structure Synthesis where
  id : String
  conversation_id : String
  summary : String
  summary_word_count : Option Nat
  key_decisions : Option (List String)
  action_items : Option (List ActionItem)
  open_questions : Option (List String)
  key_topics : Option (List String)
  llm_model : Option String
  llm_tokens_used : Option Nat
  processing_time_seconds : Option ℚ
  confidence_score : Option ℚ
  email_sent_at : Option String
  email_recipients : Option (List String)
  email_delivery_status : Option String
deriving DecidableEq, Repr

/-! ### Transcription service (src/services/transcription_service.py) -/

/-- Result dictionary returned by a provider client `transcribe` call. -/
structure TranscriptResult where
  text : String
  language : Option String
deriving DecidableEq, Repr

namespace TranscriptionService

/-- `TranscriptionService._get_provider_order` (lines 242-267): the order in
which providers are to be tried, given the pin and whether
`SonioxClient.is_available()` holds. -/
def get_provider_order (soniox_available : Bool)
    (prefer_provider : Option TranscriptionProvider) :
    List TranscriptionProvider :=
  match prefer_provider with
  | some TranscriptionProvider.whisper => [TranscriptionProvider.whisper]
  | some TranscriptionProvider.soniox =>
      [TranscriptionProvider.soniox, TranscriptionProvider.whisper]
  | none =>
      if soniox_available then
        [TranscriptionProvider.soniox, TranscriptionProvider.whisper]
      else
        [TranscriptionProvider.whisper]

/-- Outcome of the provider loop of `transcribe_audio` (lines 110-152):
`invoked` is the sequence of providers whose `transcribe` method was actually
called, in order; `success` is the first successful provider with its result;
`last_error` is the error of the last failing call. -/
structure ProviderRun where
  invoked : List TranscriptionProvider
  success : Option (TranscriptionProvider × TranscriptResult)
  last_error : Option String
deriving DecidableEq, Repr

/-- The `for provider in providers:` loop of `transcribe_audio`
(lines 110-152): Soniox is skipped (`continue`, no call) when
`is_available()` is false; a successful call breaks the loop; a failing call
records `last_error` and continues. `attempt p` is the outcome of calling
provider `p` on the audio stream. -/
def provider_loop (soniox_available : Bool)
    (attempt : TranscriptionProvider → Except String TranscriptResult) :
    List TranscriptionProvider → ProviderRun
  | [] => ⟨[], none, none⟩
  | p :: rest =>
    if p = TranscriptionProvider.soniox ∧ soniox_available = false then
      provider_loop soniox_available attempt rest
    else
      match attempt p with
      | Except.ok r => ⟨[p], some (p, r), none⟩
      | Except.error e =>
        let t := provider_loop soniox_available attempt rest
        ⟨p :: t.invoked, t.success, some (t.last_error.getD e)⟩

/-- Dictionary returned by `transcribe_audio` on success (lines 199-205). -/
structure TranscribeResponse where
  text : String
  word_count : Nat
  provider : TranscriptionProvider
  processing_time_seconds : ℚ
  language : String
deriving DecidableEq, Repr

/-- `TranscriptionService.transcribe_audio` (lines 54-205). `conv` is the
repository lookup result for `conversation_id`; `elapsed` is the wall-clock
span `time.time() - start_time` at the end of the provider loop. Returns the
updated conversation row and either the response dictionary or the raised
exception message. -/
def transcribe_audio (conversation_id : String) (conv : Option Conversation)
    (soniox_available : Bool)
    (attempt : TranscriptionProvider → Except String TranscriptResult)
    (language : Option String)
    (prefer_provider : Option TranscriptionProvider)
    (elapsed : ℚ) :
    Option Conversation × Except String TranscribeResponse :=
  match conv with
  | none =>
    (none, Except.error ("Conversation " ++ conversation_id ++ " not found"))
  | some c =>
    let c1 := { c with status := ConversationStatus.transcribing }
    let run := provider_loop soniox_available attempt
      (get_provider_order soniox_available prefer_provider)
    match run.success with
    | none =>
      let msg := "All transcription providers failed. Last error: " ++
        run.last_error.getD "None"
      (some { c1 with
          status := ConversationStatus.failed,
          error_message := some msg,
          processing_time_seconds := some (pyInt elapsed) },
       Except.error msg)
    | some (p, r) =>
      let wc := pyWordCount r.text
      (some { c1 with
          status := ConversationStatus.completed,
          transcript := some r.text,
          transcript_word_count := some wc,
          transcription_provider := some p,
          processing_time_seconds := some (pyInt elapsed) },
       Except.ok ⟨r.text, wc, p, elapsed, r.language.getD (pyOrStr language "unknown")⟩)

end TranscriptionService

/-! ### Provider client retry loops (src/integrations) -/

/-- Observable trace of one client call: how many upstream attempts were made,
the backoff sleeps performed between attempts (in seconds), and the final
result or raised exception message. -/
structure RetryTrace (ρ : Type) where
  attempts : Nat
  sleeps : List Nat
  result : Except String ρ
deriving Repr

/-- Outcome of one upstream OpenAI API attempt. `is_auth` marks an
authentication failure; in the library it is a subclass of `OpenAIError`, so
the clients that catch `OpenAIError` treat it like any other API error. -/
inductive ApiOutcome (ρ : Type)
  | ok (r : ρ)
  | openai_error (is_auth : Bool) (msg : String)

namespace WhisperClient

/-- The `for attempt in range(1, max_retries + 1):` loop of
`WhisperClient.transcribe` (whisper_client.py lines 69-132). `beh k` is the
outcome of the k-th upstream call; the fuel argument is an upper bound on the
remaining iterations and the fuel-exhausted case is the trailing
`raise last_error or OpenAIError("Transcription failed")` reached only when
the loop body never runs. -/
def transcribe_go {ρ : Type} (beh : Nat → ApiOutcome ρ) (max_retries : Nat) :
    Nat → Nat → RetryTrace ρ
  | _, 0 => ⟨0, [], Except.error "Transcription failed"⟩
  | attempt, fuel + 1 =>
    match beh attempt with
    | ApiOutcome.ok r => ⟨1, [], Except.ok r⟩
    | ApiOutcome.openai_error _ m =>
      if attempt < max_retries then
        let t := transcribe_go beh max_retries (attempt + 1) fuel
        ⟨t.attempts + 1, 2 ^ attempt :: t.sleeps, t.result⟩
      else
        ⟨1, [], Except.error m⟩

/-- `WhisperClient.transcribe` (lines 31-132), with the upstream API call
abstracted as `beh`. Every caught exception is an `OpenAIError`
(authentication errors included); the loop sleeps `2 ** attempt` seconds
between attempts. -/
def transcribe {ρ : Type} (beh : Nat → ApiOutcome ρ) (max_retries : Nat) :
    RetryTrace ρ :=
  transcribe_go beh max_retries 1 max_retries

end WhisperClient

/-- Outcome of one upstream attempt of the synthesis client: an API reply that
parses as JSON, an `OpenAIError` (authentication or otherwise), or a reply
whose body fails JSON parsing. -/
inductive SynthApiOutcome (ρ : Type)
  | ok (r : ρ)
  | openai_error (is_auth : Bool) (msg : String)
  | json_error (msg : String)

namespace OpenAISynthesisClient

/-- The retry loop of `OpenAISynthesisClient.synthesize_transcript`
(openai_synthesis_client.py lines 77-169): `OpenAIError` and
`json.JSONDecodeError` are both retried with a `2 ** attempt` sleep; on the
final attempt a parse failure is re-raised wrapped as an `OpenAIError`. -/
def synthesize_go {ρ : Type} (beh : Nat → SynthApiOutcome ρ) (max_retries : Nat) :
    Nat → Nat → RetryTrace ρ
  | _, 0 => ⟨0, [], Except.error "Synthesis failed"⟩
  | attempt, fuel + 1 =>
    match beh attempt with
    | SynthApiOutcome.ok r => ⟨1, [], Except.ok r⟩
    | SynthApiOutcome.openai_error _ m =>
      if attempt < max_retries then
        let t := synthesize_go beh max_retries (attempt + 1) fuel
        ⟨t.attempts + 1, 2 ^ attempt :: t.sleeps, t.result⟩
      else
        ⟨1, [], Except.error m⟩
    | SynthApiOutcome.json_error m =>
      if attempt < max_retries then
        let t := synthesize_go beh max_retries (attempt + 1) fuel
        ⟨t.attempts + 1, 2 ^ attempt :: t.sleeps, t.result⟩
      else
        ⟨1, [], Except.error ("Failed to parse synthesis response as JSON: " ++ m)⟩

/-- `OpenAISynthesisClient.synthesize_transcript` (lines 33-169): the
`if not transcript or len(transcript.strip()) < 50` validation runs before
the retry loop, so a too-short transcript yields zero upstream attempts. -/
def synthesize_transcript {ρ : Type} (transcript : String)
    (beh : Nat → SynthApiOutcome ρ) (max_retries : Nat) : RetryTrace ρ :=
  if transcript = "" ∨ (pyStrip transcript).length < 50 then
    ⟨0, [], Except.error "Transcript too short for synthesis (minimum 50 characters)"⟩
  else
    synthesize_go beh max_retries 1 max_retries

end OpenAISynthesisClient

/-- Outcome of one SMTP send attempt: success, an
`smtplib.SMTPAuthenticationError`, or any other exception. -/
inductive SmtpOutcome
  | ok
  | auth_error (msg : String)
  | other_error (msg : String)

namespace SMTPClient

/-- The retry loop of `SMTPClient.send_email` (smtp_client.py lines 87-168):
a successful attempt returns a dictionary whose `sent_at` is `time.time()`
(modelled by the `sent_at` parameter); `SMTPAuthenticationError` is raised
immediately with no retry; any other exception is retried with a
`2 ** attempt` sleep up to `max_retries`. -/
def send_email_go (beh : Nat → SmtpOutcome) (max_retries : Nat) (sent_at : ℚ) :
    Nat → Nat → RetryTrace ℚ
  | _, 0 => ⟨0, [], Except.error "Email sending failed"⟩
  | attempt, fuel + 1 =>
    match beh attempt with
    | SmtpOutcome.ok => ⟨1, [], Except.ok sent_at⟩
    | SmtpOutcome.auth_error m =>
      ⟨1, [], Except.error ("SMTP authentication failed: " ++ m)⟩
    | SmtpOutcome.other_error m =>
      if attempt < max_retries then
        let t := send_email_go beh max_retries sent_at (attempt + 1) fuel
        ⟨t.attempts + 1, 2 ^ attempt :: t.sleeps, t.result⟩
      else
        ⟨1, [], Except.error m⟩

/-- `SMTPClient.send_email` (lines 49-168), attempts abstracted as `beh`. -/
def send_email (beh : Nat → SmtpOutcome) (max_retries : Nat) (sent_at : ℚ) :
    RetryTrace ℚ :=
  send_email_go beh max_retries sent_at 1 max_retries

end SMTPClient

/-! ### Synthesis service (src/services/synthesis_service.py) -/

/-- Result dictionary of a successful `synthesize_transcript` call, as
consumed by the synthesis service. -/
structure SynthesisResult where
  summary : String
  key_decisions : List String
  action_items : List ActionItem
  open_questions : List String
  key_topics : List String
  llm_model : String
  llm_tokens_used : Nat
  processing_time_seconds : ℚ
deriving DecidableEq, Repr

/-- Dictionary returned by `SynthesisService.generate_synthesis`. Field types
mirror the `Synthesis` row in the short-circuit branch, which reads possibly
NULL columns of a pre-existing row. -/
structure SynthesisResponse where
  synthesis_id : String
  summary : String
  key_decisions : Option (List String)
  action_items : Option (List ActionItem)
  open_questions : Option (List String)
  key_topics : Option (List String)
  llm_model : Option String
  llm_tokens_used : Option Nat
  processing_time_seconds : Option ℚ
deriving DecidableEq, Repr

namespace SynthesisService

/-- `SynthesisService.generate_synthesis` (synthesis_service.py lines 47-227).
`conv` is the repository lookup for `conversation_id` and `existing` the
lookup of `synthesis_repo.get_by_conversation_id`; `llm t title` is the
outcome of `synthesize_transcript`; `new_id` is the identifier the store
assigns on row creation; `elapsed_total` is `time.time() - start_time` after
the LLM call. Returns the updated conversation row, the updated synthesis
row, and the response dictionary or raised exception message. -/
def generate_synthesis (conversation_id : String) (conv : Option Conversation)
    (existing : Option Synthesis)
    (llm : String → String → Except String SynthesisResult)
    (force_regenerate : Bool) (new_id : String) (elapsed_total : ℚ) :
    Option Conversation × Option Synthesis × Except String SynthesisResponse :=
  match conv with
  | none =>
    (none, existing,
     Except.error ("Conversation " ++ conversation_id ++ " not found"))
  | some c =>
    match c.transcript with
    | none =>
      (some c, existing,
       Except.error ("No transcript available for conversation " ++ conversation_id))
    | some t =>
      if t = "" then
        (some c, existing,
         Except.error ("No transcript available for conversation " ++ conversation_id))
      else
        match existing, force_regenerate with
        | some s, false =>
          (some c, some s,
           Except.ok ⟨s.id, s.summary, s.key_decisions, s.action_items,
             s.open_questions, s.key_topics, s.llm_model, s.llm_tokens_used,
             s.processing_time_seconds⟩)
        | _, _ =>
          let c1 := { c with
            status := ConversationStatus.synthesizing,
            synthesis_provider := some "openai_gpt4" }
          match llm t c.title with
          | Except.ok r =>
            let swc := pyWordCount r.summary
            let srow : Synthesis :=
              match existing with
              | some s =>
                { s with
                  summary := r.summary,
                  summary_word_count := some swc,
                  key_decisions := some r.key_decisions,
                  action_items := some r.action_items,
                  open_questions := some r.open_questions,
                  key_topics := some r.key_topics,
                  llm_model := some r.llm_model,
                  llm_tokens_used := some r.llm_tokens_used,
                  processing_time_seconds := some r.processing_time_seconds }
              | none =>
                ⟨new_id, conversation_id, r.summary, some swc,
                 some r.key_decisions, some r.action_items,
                 some r.open_questions, some r.key_topics,
                 some r.llm_model, some r.llm_tokens_used,
                 some r.processing_time_seconds, none, none, none, none⟩
            let c2 := { c1 with
              status := ConversationStatus.completed,
              processing_time_seconds := some (pyInt elapsed_total) }
            (some c2, some srow,
             Except.ok ⟨srow.id, r.summary, some r.key_decisions,
               some r.action_items, some r.open_questions, some r.key_topics,
               some r.llm_model, some r.llm_tokens_used,
               some r.processing_time_seconds⟩)
          | Except.error e =>
            (some { c1 with
                status := ConversationStatus.failed,
                error_message := some ("Synthesis failed: " ++ e),
                processing_time_seconds := some (pyInt elapsed_total) },
             existing, Except.error e)

end SynthesisService

/-! ### Email service (src/services/email_service.py) -/

/-- Dictionary returned by `EmailService.send_synthesis_email` on success. -/
structure EmailResponse where
  success : Bool
  message : String
  recipients : List String
  sent_at : ℚ
deriving DecidableEq, Repr

namespace EmailService

/-- The participant branch of recipient resolution in `send_synthesis_email`
(email_service.py lines 111-136): error when the conversation has no
participants, otherwise keep the truthy (non-empty) addresses, erroring when
none remain. -/
def resolve_participant_recipients (conversation_id : String)
    (c : Conversation) : Except String (List String) :=
  if c.participants = [] then
    Except.error ("No participants found for conversation " ++ conversation_id)
  else
    let recipients := (c.participants.map Participant.email).filter (fun e => e ≠ "")
    if recipients = [] then
      Except.error "No valid email addresses found in participants"
    else
      Except.ok recipients

/-- `EmailService.send_synthesis_email` (lines 56-205). `conv` and `synth` are
the repository lookups; `send rs` is the outcome of
`smtp_client.send_email(to_emails=rs, ...)`, whose payload is the timestamp
the SMTP client reports in its `sent_at` field; `utc_now_iso` is the
service-side `datetime.utcnow().isoformat()` reading used when recording
delivery. Returns the updated synthesis row and the response dictionary or
raised exception message. An empty `custom_recipients` list is falsy in
`if custom_recipients:` and therefore falls through to participant
resolution. -/
def send_synthesis_email (conversation_id : String)
    (conv : Option Conversation) (synth : Option Synthesis)
    (send : List String → Except String ℚ) (utc_now_iso : String)
    (custom_recipients : Option (List String)) :
    Option Synthesis × Except String EmailResponse :=
  match conv with
  | none =>
    (synth, Except.error ("Conversation " ++ conversation_id ++ " not found"))
  | some c =>
    match synth with
    | none =>
      (none, Except.error ("No synthesis found for conversation " ++ conversation_id))
    | some s =>
      let recipients? :=
        match custom_recipients with
        | some l =>
          if l = [] then resolve_participant_recipients conversation_id c
          else Except.ok l
        | none => resolve_participant_recipients conversation_id c
      match recipients? with
      | Except.error e => (some s, Except.error e)
      | Except.ok recipients =>
        match send recipients with
        | Except.ok ts =>
          (some { s with
              email_sent_at := some utc_now_iso,
              email_recipients := some recipients,
              email_delivery_status := some "sent" },
           Except.ok ⟨true,
             "Synthesis email sent to " ++ toString recipients.length ++ " recipient(s)",
             recipients, ts⟩)
        | Except.error e =>
          (some { s with email_delivery_status := some "failed" },
           Except.error e)

end EmailService

/-! ### Base repository (src/repositories/base.py) -/

/-- A persisted record as the dynamically-typed update path sees it: a finite
attribute map. `α` is the value type. -/
abbrev PyObject (α : Type) : Type := List (String × α)

namespace BaseRepository

variable {α : Type} [DecidableEq α]

/-- Python `getattr`-style read of attribute `k`. -/
def py_getattr (o : PyObject α) (k : String) : Option α :=
  (o.find? (fun kv => kv.1 = k)).map Prod.snd

/-- Python `hasattr(instance, key)`. -/
def py_hasattr (o : PyObject α) (k : String) : Bool :=
  o.any (fun kv => kv.1 = k)

/-- Python `setattr(instance, key, value)`: overwrite an existing attribute,
otherwise add it. -/
def py_setattr (o : PyObject α) (k : String) (v : α) : PyObject α :=
  if py_hasattr o k then
    o.map (fun kv => if kv.1 = k then (k, v) else kv)
  else
    o ++ [(k, v)]

/-- The `for key, value in kwargs.items(): if hasattr(instance, key):
setattr(instance, key, value)` loop of `BaseRepository.update`
(base.py lines 92-94). -/
def apply_kwargs (o : PyObject α) (kwargs : List (String × α)) : PyObject α :=
  kwargs.foldl (fun acc kv =>
    if py_hasattr acc kv.1 then py_setattr acc kv.1 kv.2 else acc) o

/-- `BaseRepository.get_by_id` (lines 52-62): first record whose `id`
attribute equals the given identifier. -/
def get_by_id (store : List (PyObject α)) (idv : α) : Option (PyObject α) :=
  store.find? (fun o => py_getattr o "id" = some idv)

/-- `BaseRepository.update` (lines 77-98) acting on the whole store: look up
the record by identifier, return `None` leaving the store unchanged when it
does not resolve, otherwise apply the guarded attribute writes and commit. -/
def update : List (PyObject α) → α → List (String × α) →
    Option (PyObject α) × List (PyObject α)
  | [], _, _ => (none, [])
  | o :: rest, idv, kwargs =>
    if py_getattr o "id" = some idv then
      let o2 := apply_kwargs o kwargs
      (some o2, o2 :: rest)
    else
      let t := update rest idv kwargs
      (t.1, o :: t.2)

/-- `BaseRepository.delete` (lines 100-116) acting on the whole store. -/
def delete : List (PyObject α) → α → Bool × List (PyObject α)
  | [], _ => (false, [])
  | o :: rest, idv =>
    if py_getattr o "id" = some idv then
      (true, rest)
    else
      let t := delete rest idv
      (t.1, o :: t.2)

end BaseRepository

/-! ### Claims -/

/-- Claim C1: the providers tried by `TranscriptionService.transcribe_audio`
are determined by the pin and by Soniox availability. Pinning whisper gives
the order `[whisper]` and the loop never invokes Soniox; pinning soniox gives
the order `[soniox, whisper]`, soniox first with whisper invoked as fallback
when soniox fails; unpinned, the order is `[soniox, whisper]` when
`is_available()` holds and `[whisper]` otherwise, the first provider actually
invoked is soniox exactly when it is available, and whisper is invoked
afterwards when the soniox call fails. -/
theorem C1_provider_order (avail : Bool) :
    (TranscriptionService.get_provider_order avail (some TranscriptionProvider.whisper)
      = [TranscriptionProvider.whisper]) ∧
    (∀ attempt, (TranscriptionService.provider_loop avail attempt
        (TranscriptionService.get_provider_order avail (some TranscriptionProvider.whisper))).invoked
      = [TranscriptionProvider.whisper]) ∧
    (TranscriptionService.get_provider_order avail (some TranscriptionProvider.soniox)
      = [TranscriptionProvider.soniox, TranscriptionProvider.whisper]) ∧
    (∀ attempt e, avail = true →
      attempt TranscriptionProvider.soniox = Except.error e →
      (TranscriptionService.provider_loop avail attempt
        (TranscriptionService.get_provider_order avail (some TranscriptionProvider.soniox))).invoked
      = [TranscriptionProvider.soniox, TranscriptionProvider.whisper]) ∧
    (TranscriptionService.get_provider_order avail none
      = if avail then [TranscriptionProvider.soniox, TranscriptionProvider.whisper]
        else [TranscriptionProvider.whisper]) ∧
    (∀ attempt, ((TranscriptionService.provider_loop avail attempt
        (TranscriptionService.get_provider_order avail none)).invoked.head?
      = some TranscriptionProvider.soniox ↔ avail = true)) ∧
    (∀ attempt e, avail = true →
      attempt TranscriptionProvider.soniox = Except.error e →
      (TranscriptionService.provider_loop avail attempt
        (TranscriptionService.get_provider_order avail none)).invoked
      = [TranscriptionProvider.soniox, TranscriptionProvider.whisper]) := by
  refine ⟨rfl, ?_, rfl, ?_, rfl, ?_, ?_⟩
  · intro attempt
    cases h : attempt TranscriptionProvider.whisper <;>
      simp [TranscriptionService.provider_loop,
        TranscriptionService.get_provider_order, h]
  · intro attempt e ha hs
    subst ha
    cases h : attempt TranscriptionProvider.whisper <;>
      simp [TranscriptionService.provider_loop,
        TranscriptionService.get_provider_order, hs, h]
  · intro attempt
    cases avail
    · cases h : attempt TranscriptionProvider.whisper <;>
        simp [TranscriptionService.provider_loop,
          TranscriptionService.get_provider_order, h]
    · cases h : attempt TranscriptionProvider.soniox <;>
        simp [TranscriptionService.provider_loop,
          TranscriptionService.get_provider_order, h]
  · intro attempt e ha hs
    subst ha
    cases h : attempt TranscriptionProvider.whisper <;>
      simp [TranscriptionService.provider_loop,
        TranscriptionService.get_provider_order, hs, h]

/-- Witness for C1 at a concrete input: Soniox configured but failing, so the
unpinned loop invokes soniox and then whisper. -/
theorem C1_provider_order_witness :
    (TranscriptionService.provider_loop true (fun _ => Except.error "boom")
      (TranscriptionService.get_provider_order true none)).invoked
    = [TranscriptionProvider.soniox, TranscriptionProvider.whisper] :=
  (C1_provider_order true).2.2.2.2.2.2 (fun _ => Except.error "boom") "boom" rfl rfl

/-- Claim C2: when every provider call raises, `transcribe_audio` on an
existing conversation marks it FAILED, stores an error message that ends with
the error of the last attempted provider (whisper is always the last provider
attempted, whatever the pin and availability), raises to the caller, and
leaves the transcript field untouched — the resulting row differs from the
input row only in status, error message and processing time. -/
theorem C2_all_providers_fail (conversation_id : String) (c : Conversation)
    (avail : Bool)
    (attempt : TranscriptionProvider → Except String TranscriptResult)
    (language : Option String) (prefer : Option TranscriptionProvider)
    (elapsed : ℚ)
    (hfail : ∀ p, ∃ e, attempt p = Except.error e) :
    ∃ ew, attempt TranscriptionProvider.whisper = Except.error ew ∧
      TranscriptionService.transcribe_audio conversation_id (some c) avail
        attempt language prefer elapsed
      = (some { c with
            status := ConversationStatus.failed,
            error_message :=
              some ("All transcription providers failed. Last error: " ++ ew),
            processing_time_seconds := some (pyInt elapsed) },
         Except.error ("All transcription providers failed. Last error: " ++ ew)) := by
  obtain ⟨es, hs⟩ := hfail TranscriptionProvider.soniox
  obtain ⟨ew, hw⟩ := hfail TranscriptionProvider.whisper
  refine ⟨ew, hw, ?_⟩
  rcases prefer with _ | p
  · cases avail <;>
      simp [TranscriptionService.transcribe_audio,
        TranscriptionService.provider_loop,
        TranscriptionService.get_provider_order, hs, hw]
  · cases p <;> cases avail <;>
      simp [TranscriptionService.transcribe_audio,
        TranscriptionService.provider_loop,
        TranscriptionService.get_provider_order, hs, hw]

/-- Witness for C2: both providers raise "boom"; the conversation is marked
FAILED citing it and the transcript field stays `none`. -/
theorem C2_all_providers_fail_witness :
    ∃ ew, (Except.error "boom" : Except String TranscriptResult) = Except.error ew ∧
      TranscriptionService.transcribe_audio "c1"
        (some ⟨"c1", "Standup", ConversationStatus.pending, none, none, none,
          none, none, none, []⟩)
        true (fun _ => Except.error "boom") none none 2
      = (some { (⟨"c1", "Standup", ConversationStatus.pending, none, none, none,
            none, none, none, []⟩ : Conversation) with
            status := ConversationStatus.failed,
            error_message :=
              some ("All transcription providers failed. Last error: " ++ ew),
            processing_time_seconds := some (pyInt 2) },
         Except.error ("All transcription providers failed. Last error: " ++ ew)) :=
  C2_all_providers_fail "c1" _ true (fun _ => Except.error "boom") none none 2
    (fun _ => ⟨"boom", rfl⟩)

/-- Claim C3: when the provider loop succeeds with provider `p` and result
`r`, `transcribe_audio` on an existing conversation stores status COMPLETED,
the transcript text, the whitespace-token word count, the successful provider
and the truncated elapsed seconds, and returns the corresponding response. -/
theorem C3_success (conversation_id : String) (c : Conversation) (avail : Bool)
    (attempt : TranscriptionProvider → Except String TranscriptResult)
    (language : Option String) (prefer : Option TranscriptionProvider)
    (elapsed : ℚ) (p : TranscriptionProvider) (r : TranscriptResult)
    (hsucc : (TranscriptionService.provider_loop avail attempt
        (TranscriptionService.get_provider_order avail prefer)).success
      = some (p, r)) :
    TranscriptionService.transcribe_audio conversation_id (some c) avail
      attempt language prefer elapsed
    = (some { c with
          status := ConversationStatus.completed,
          transcript := some r.text,
          transcript_word_count := some (pyWordCount r.text),
          transcription_provider := some p,
          processing_time_seconds := some (pyInt elapsed) },
       Except.ok ⟨r.text, pyWordCount r.text, p, elapsed,
         r.language.getD (pyOrStr language "unknown")⟩) := by
  simp [TranscriptionService.transcribe_audio, hsucc]

/-- Witness for C3: whisper returns a two-word transcript. -/
theorem C3_success_witness :
    TranscriptionService.transcribe_audio "c1"
      (some ⟨"c1", "Standup", ConversationStatus.pending, none, none, none,
        none, none, none, []⟩)
      false (fun _ => Except.ok ⟨"hello world", some "en"⟩) none none 2
    = (some { (⟨"c1", "Standup", ConversationStatus.pending, none, none, none,
          none, none, none, []⟩ : Conversation) with
          status := ConversationStatus.completed,
          transcript := some "hello world",
          transcript_word_count := some (pyWordCount "hello world"),
          transcription_provider := some TranscriptionProvider.whisper,
          processing_time_seconds := some (pyInt 2) },
       Except.ok ⟨"hello world", pyWordCount "hello world",
         TranscriptionProvider.whisper, 2, "en"⟩) :=
  C3_success "c1" _ false (fun _ => Except.ok ⟨"hello world", some "en"⟩)
    none none 2 TranscriptionProvider.whisper ⟨"hello world", some "en"⟩ rfl

/-- Claim C4: on a conversation with a non-empty transcript and an existing
synthesis row, `generate_synthesis` with `force_regenerate = false` returns
exactly the stored fields, leaves both rows unchanged, and its result does not
depend on the LLM client, the fresh row identifier or the clock (so the LLM is
not invoked); consequently a second unforced call returns the same response as
the first even with a different LLM client or clock. -/
theorem C4_idempotent_short_circuit (conversation_id : String)
    (c : Conversation) (s : Synthesis) (t : String)
    (ht : c.transcript = some t) (hne : t ≠ "") :
    (∀ llm new_id elapsed,
      SynthesisService.generate_synthesis conversation_id (some c) (some s)
        llm false new_id elapsed
      = (some c, some s,
         Except.ok ⟨s.id, s.summary, s.key_decisions, s.action_items,
           s.open_questions, s.key_topics, s.llm_model, s.llm_tokens_used,
           s.processing_time_seconds⟩)) ∧
    (∀ llm llm2 new_id new_id2 elapsed elapsed2,
      (SynthesisService.generate_synthesis conversation_id (some c) (some s)
        llm false new_id elapsed).2.2
      = (SynthesisService.generate_synthesis conversation_id (some c) (some s)
        llm2 false new_id2 elapsed2).2.2) := by
  constructor
  · intro llm new_id elapsed
    simp [SynthesisService.generate_synthesis, ht, hne]
  · intro llm llm2 new_id new_id2 elapsed elapsed2
    simp [SynthesisService.generate_synthesis, ht, hne]

/-- Witness for C4: a concrete conversation and synthesis row; the unforced
call returns the stored fields with an LLM stub that would fail if called. -/
theorem C4_idempotent_short_circuit_witness :
    SynthesisService.generate_synthesis "c1"
      (some ⟨"c1", "Standup", ConversationStatus.completed,
        some "We decided things.", some 3, some TranscriptionProvider.whisper,
        none, some 2, none, []⟩)
      (some ⟨"s1", "c1", "Sum", some 1, some ["d"], some [⟨"t", none, none⟩],
        some [], some ["topic"], some "gpt-4", some 100, some 3, none, none,
        none, none⟩)
      (fun _ _ => Except.error "llm must not be called") false "s2" 7
    = (some ⟨"c1", "Standup", ConversationStatus.completed,
        some "We decided things.", some 3, some TranscriptionProvider.whisper,
        none, some 2, none, []⟩,
       some ⟨"s1", "c1", "Sum", some 1, some ["d"], some [⟨"t", none, none⟩],
        some [], some ["topic"], some "gpt-4", some 100, some 3, none, none,
        none, none⟩,
       Except.ok ⟨"s1", "Sum", some ["d"], some [⟨"t", none, none⟩], some [],
         some ["topic"], some "gpt-4", some 100, some 3⟩) :=
  (C4_idempotent_short_circuit "c1" _ _ "We decided things." rfl
    (by decide)).1 (fun _ _ => Except.error "llm must not be called") "s2" 7

/-- The backoff sleeps recorded from attempt `k` onward: one more head sleep
`2 ^ k` followed by the sleeps from attempt `k + 1`. -/
lemma pow_sleeps_cons (k f : Nat) :
    2 ^ k :: (List.range f).map (fun i => 2 ^ (k + 1 + i))
    = (List.range (f + 1)).map (fun i => 2 ^ (k + i)) := by
  rw [List.range_succ_eq_map, List.map_cons, List.map_map]
  refine congrArg₂ List.cons (by simp) ?_
  refine congrArg (fun g => List.map g (List.range f)) ?_
  funext i
  simp only [Function.comp]
  congr 1
  omega

/-- Behaviour of the whisper retry loop when every upstream attempt raises the
same `OpenAIError` (authentication or not): starting at attempt `k` with the
invariant `k + fuel = max_retries`, all remaining attempts are made with a
`2 ^ attempt` sleep after each non-final one. -/
lemma whisper_transcribe_go_allfail {ρ : Type} (a : Bool) (m : String)
    (max_retries : Nat) :
    ∀ (fuel k : Nat), 1 ≤ k → k + fuel = max_retries →
    WhisperClient.transcribe_go
      (fun _ => (ApiOutcome.openai_error a m : ApiOutcome ρ)) max_retries k (fuel + 1)
    = ⟨fuel + 1, (List.range fuel).map (fun i => 2 ^ (k + i)), Except.error m⟩ := by
  intro fuel
  induction fuel with
  | zero =>
    intro k hk hmax
    have hk2 : k = max_retries := by omega
    subst hk2
    simp [WhisperClient.transcribe_go]
  | succ f ih =>
    intro k hk hmax
    have hlt : k < max_retries := by omega
    have ht := ih (k + 1) (by omega) (by omega)
    have hunfold : WhisperClient.transcribe_go
        (fun _ => (ApiOutcome.openai_error a m : ApiOutcome ρ)) max_retries k (f + 1 + 1)
        = if k < max_retries then
            ⟨(WhisperClient.transcribe_go
                (fun _ => (ApiOutcome.openai_error a m : ApiOutcome ρ)) max_retries (k + 1) (f + 1)).attempts + 1,
             2 ^ k :: (WhisperClient.transcribe_go
                (fun _ => (ApiOutcome.openai_error a m : ApiOutcome ρ)) max_retries (k + 1) (f + 1)).sleeps,
             (WhisperClient.transcribe_go
                (fun _ => (ApiOutcome.openai_error a m : ApiOutcome ρ)) max_retries (k + 1) (f + 1)).result⟩
          else ⟨1, [], Except.error m⟩ := rfl
    rw [hunfold, if_pos hlt, ht]
    show RetryTrace.mk (f + 1 + 1) (2 ^ k :: (List.range f).map (fun i => 2 ^ (k + 1 + i))) (Except.error m) = _
    rw [pow_sleeps_cons]

/-- Same shape for the synthesis client retry loop on a constant
`OpenAIError`. -/
lemma synthesize_go_allfail {ρ : Type} (a : Bool) (m : String)
    (max_retries : Nat) :
    ∀ (fuel k : Nat), 1 ≤ k → k + fuel = max_retries →
    OpenAISynthesisClient.synthesize_go
      (fun _ => (SynthApiOutcome.openai_error a m : SynthApiOutcome ρ)) max_retries k (fuel + 1)
    = ⟨fuel + 1, (List.range fuel).map (fun i => 2 ^ (k + i)), Except.error m⟩ := by
  intro fuel
  induction fuel with
  | zero =>
    intro k hk hmax
    have hk2 : k = max_retries := by omega
    subst hk2
    simp [OpenAISynthesisClient.synthesize_go]
  | succ f ih =>
    intro k hk hmax
    have hlt : k < max_retries := by omega
    have ht := ih (k + 1) (by omega) (by omega)
    have hunfold : OpenAISynthesisClient.synthesize_go
        (fun _ => (SynthApiOutcome.openai_error a m : SynthApiOutcome ρ)) max_retries k (f + 1 + 1)
        = if k < max_retries then
            ⟨(OpenAISynthesisClient.synthesize_go
                (fun _ => (SynthApiOutcome.openai_error a m : SynthApiOutcome ρ)) max_retries (k + 1) (f + 1)).attempts + 1,
             2 ^ k :: (OpenAISynthesisClient.synthesize_go
                (fun _ => (SynthApiOutcome.openai_error a m : SynthApiOutcome ρ)) max_retries (k + 1) (f + 1)).sleeps,
             (OpenAISynthesisClient.synthesize_go
                (fun _ => (SynthApiOutcome.openai_error a m : SynthApiOutcome ρ)) max_retries (k + 1) (f + 1)).result⟩
          else ⟨1, [], Except.error m⟩ := rfl
    rw [hunfold, if_pos hlt, ht]
    show RetryTrace.mk (f + 1 + 1) (2 ^ k :: (List.range f).map (fun i => 2 ^ (k + 1 + i))) (Except.error m) = _
    rw [pow_sleeps_cons]

/-- Same shape for the SMTP retry loop on a constant non-authentication
exception. -/
lemma smtp_send_email_go_allfail (m : String) (sent_at : ℚ)
    (max_retries : Nat) :
    ∀ (fuel k : Nat), 1 ≤ k → k + fuel = max_retries →
    SMTPClient.send_email_go (fun _ => SmtpOutcome.other_error m) max_retries
      sent_at k (fuel + 1)
    = ⟨fuel + 1, (List.range fuel).map (fun i => 2 ^ (k + i)), Except.error m⟩ := by
  intro fuel
  induction fuel with
  | zero =>
    intro k hk hmax
    have hk2 : k = max_retries := by omega
    subst hk2
    simp [SMTPClient.send_email_go]
  | succ f ih =>
    intro k hk hmax
    have hlt : k < max_retries := by omega
    have ht := ih (k + 1) (by omega) (by omega)
    have hunfold : SMTPClient.send_email_go (fun _ => SmtpOutcome.other_error m)
        max_retries sent_at k (f + 1 + 1)
        = if k < max_retries then
            ⟨(SMTPClient.send_email_go (fun _ => SmtpOutcome.other_error m)
                max_retries sent_at (k + 1) (f + 1)).attempts + 1,
             2 ^ k :: (SMTPClient.send_email_go (fun _ => SmtpOutcome.other_error m)
                max_retries sent_at (k + 1) (f + 1)).sleeps,
             (SMTPClient.send_email_go (fun _ => SmtpOutcome.other_error m)
                max_retries sent_at (k + 1) (f + 1)).result⟩
          else ⟨1, [], Except.error m⟩ := rfl
    rw [hunfold, if_pos hlt, ht]
    show RetryTrace.mk (f + 1 + 1) (2 ^ k :: (List.range f).map (fun i => 2 ^ (k + 1 + i))) (Except.error m) = _
    rw [pow_sleeps_cons]

/-- Counterexample to claim C5 as stated: with `max_retries = 3`, an upstream
authentication failure makes `WhisperClient.transcribe` perform all three
attempts with backoff sleeps of 2 and 4 seconds — the claim predicts a single
attempt and no sleep. The whisper client catches `OpenAIError`, of which the
authentication error is a subclass, with no auth-specific branch. -/
theorem C5_counterexample :
    (WhisperClient.transcribe
      (fun _ => (ApiOutcome.openai_error true "bad key" : ApiOutcome Unit)) 3).attempts = 3 ∧
    (WhisperClient.transcribe
      (fun _ => (ApiOutcome.openai_error true "bad key" : ApiOutcome Unit)) 3).sleeps = [2, 4] ∧
    ¬((WhisperClient.transcribe
        (fun _ => (ApiOutcome.openai_error true "bad key" : ApiOutcome Unit)) 3).attempts = 1 ∧
      (WhisperClient.transcribe
        (fun _ => (ApiOutcome.openai_error true "bad key" : ApiOutcome Unit)) 3).sleeps = []) := by
  refine ⟨rfl, rfl, ?_⟩
  intro h
  exact absurd h.1 (by decide)

/-- Claim C5 amended: only the SMTP client raises immediately on an
authentication failure without retrying; the Whisper and OpenAI synthesis
clients retry authentication failures exactly like any other upstream
`OpenAIError`. In all clients, retried failures are attempted up to the
configured limit with a sleep of `2 ^ attempt` seconds between attempts. -/
theorem C5_amended_retry_policy :
    (∀ (a : Bool) (m : String) (max_retries : Nat), 1 ≤ max_retries →
      WhisperClient.transcribe
        (fun _ => (ApiOutcome.openai_error a m : ApiOutcome Unit)) max_retries
      = ⟨max_retries, (List.range (max_retries - 1)).map (fun i => 2 ^ (1 + i)),
          Except.error m⟩) ∧
    (∀ (a : Bool) (m t : String) (max_retries : Nat), 1 ≤ max_retries →
      ¬(t = "" ∨ (pyStrip t).length < 50) →
      OpenAISynthesisClient.synthesize_transcript t
        (fun _ => (SynthApiOutcome.openai_error a m : SynthApiOutcome Unit)) max_retries
      = ⟨max_retries, (List.range (max_retries - 1)).map (fun i => 2 ^ (1 + i)),
          Except.error m⟩) ∧
    (∀ (m : String) (sent_at : ℚ) (beh : Nat → SmtpOutcome) (max_retries : Nat),
      1 ≤ max_retries → beh 1 = SmtpOutcome.auth_error m →
      SMTPClient.send_email beh max_retries sent_at
      = ⟨1, [], Except.error ("SMTP authentication failed: " ++ m)⟩) ∧
    (∀ (m : String) (sent_at : ℚ) (max_retries : Nat), 1 ≤ max_retries →
      SMTPClient.send_email (fun _ => SmtpOutcome.other_error m) max_retries sent_at
      = ⟨max_retries, (List.range (max_retries - 1)).map (fun i => 2 ^ (1 + i)),
          Except.error m⟩) := by
  refine ⟨?_, ?_, ?_, ?_⟩
  · intro a m max_retries hmax
    obtain ⟨n, rfl⟩ : ∃ n, max_retries = n + 1 := ⟨max_retries - 1, by omega⟩
    exact whisper_transcribe_go_allfail a m (n + 1) n 1 (by omega) (by omega)
  · intro a m t max_retries hmax hvalid
    obtain ⟨n, rfl⟩ : ∃ n, max_retries = n + 1 := ⟨max_retries - 1, by omega⟩
    unfold OpenAISynthesisClient.synthesize_transcript
    rw [if_neg hvalid]
    exact synthesize_go_allfail a m (n + 1) n 1 (by omega) (by omega)
  · intro m sent_at beh max_retries hmax hauth
    obtain ⟨n, rfl⟩ : ∃ n, max_retries = n + 1 := ⟨max_retries - 1, by omega⟩
    simp [SMTPClient.send_email, SMTPClient.send_email_go, hauth]
  · intro m sent_at max_retries hmax
    obtain ⟨n, rfl⟩ : ∃ n, max_retries = n + 1 := ⟨max_retries - 1, by omega⟩
    exact smtp_send_email_go_allfail m sent_at (n + 1) n 1 (by omega) (by omega)

/-- Witness for the amended C5: with the default limit of 3, whisper retries
an authentication failure three times with sleeps 2 and 4, while SMTP raises
on it at once. -/
theorem C5_amended_retry_policy_witness :
    (WhisperClient.transcribe
      (fun _ => (ApiOutcome.openai_error true "bad key" : ApiOutcome Unit)) 3
      = ⟨3, (List.range 2).map (fun i => 2 ^ (1 + i)), Except.error "bad key"⟩) ∧
    (SMTPClient.send_email (fun _ => SmtpOutcome.auth_error "denied") 3 0
      = ⟨1, [], Except.error ("SMTP authentication failed: " ++ "denied")⟩) :=
  ⟨C5_amended_retry_policy.1 true "bad key" 3 (by decide),
   C5_amended_retry_policy.2.2.1 "denied" 0 _ 3 (by decide) rfl⟩

/-- Claim C6: recipient resolution of `send_synthesis_email` on an existing
conversation and synthesis. A non-empty custom list is used exactly as given;
with no custom list, recipients are the non-empty participant addresses, a
conversation without participants raises, and participants without any
address raise; in particular two participants with addresses yield exactly
those two addresses. -/
theorem C6_recipient_resolution :
    (∀ (conversation_id : String) (c : Conversation) (s : Synthesis)
        (send : List String → Except String ℚ) (utc : String)
        (l : List String) (ts : ℚ),
      l ≠ [] → send l = Except.ok ts →
      EmailService.send_synthesis_email conversation_id (some c) (some s) send
        utc (some l)
      = (some { s with
            email_sent_at := some utc,
            email_recipients := some l,
            email_delivery_status := some "sent" },
         Except.ok ⟨true,
           "Synthesis email sent to " ++ toString l.length ++ " recipient(s)",
           l, ts⟩)) ∧
    (∀ (conversation_id : String) (c : Conversation) (s : Synthesis)
        (send : List String → Except String ℚ) (utc : String)
        (custom : Option (List String)),
      (custom = none ∨ custom = some []) → c.participants = [] →
      EmailService.send_synthesis_email conversation_id (some c) (some s) send
        utc custom
      = (some s,
         Except.error ("No participants found for conversation " ++ conversation_id))) ∧
    (∀ (conversation_id : String) (c : Conversation) (s : Synthesis)
        (send : List String → Except String ℚ) (utc : String)
        (custom : Option (List String)),
      (custom = none ∨ custom = some []) → c.participants ≠ [] →
      (∀ p ∈ c.participants, p.email = "") →
      EmailService.send_synthesis_email conversation_id (some c) (some s) send
        utc custom
      = (some s, Except.error "No valid email addresses found in participants")) ∧
    (∀ (conversation_id : String) (c : Conversation) (s : Synthesis)
        (send : List String → Except String ℚ) (utc : String)
        (p1 p2 : Participant) (ts : ℚ),
      c.participants = [p1, p2] → p1.email ≠ "" → p2.email ≠ "" →
      send [p1.email, p2.email] = Except.ok ts →
      EmailService.send_synthesis_email conversation_id (some c) (some s) send
        utc none
      = (some { s with
            email_sent_at := some utc,
            email_recipients := some [p1.email, p2.email],
            email_delivery_status := some "sent" },
         Except.ok ⟨true,
           "Synthesis email sent to " ++ toString ([p1.email, p2.email]).length ++ " recipient(s)",
           [p1.email, p2.email], ts⟩)) := by
  refine ⟨?_, ?_, ?_, ?_⟩
  · intro conversation_id c s send utc l ts hl hsend
    simp [EmailService.send_synthesis_email, hl, hsend]
  · intro conversation_id c s send utc custom hcustom hparts
    rcases hcustom with h | h <;> subst h <;>
      simp [EmailService.send_synthesis_email,
        EmailService.resolve_participant_recipients, hparts]
  · intro conversation_id c s send utc custom hcustom hparts hmails
    have hfilter : ((c.participants.map Participant.email).filter (fun e => e ≠ "")) = [] := by
      rw [List.filter_eq_nil_iff]
      intro e he
      obtain ⟨p, hp, rfl⟩ := List.mem_map.mp he
      simp [hmails p hp]
    have hres : EmailService.resolve_participant_recipients conversation_id c
        = Except.error "No valid email addresses found in participants" := by
      rw [EmailService.resolve_participant_recipients, if_neg hparts]
      show (if ((c.participants.map Participant.email).filter (fun e => e ≠ "")) = []
          then (Except.error "No valid email addresses found in participants" : Except String (List String))
          else Except.ok ((c.participants.map Participant.email).filter (fun e => e ≠ ""))) = _
      rw [hfilter]
      rfl
    rcases hcustom with h | h <;> subst h <;>
      simp [EmailService.send_synthesis_email, hres]
  · intro conversation_id c s send utc p1 p2 ts hparts hp1 hp2 hsend
    simp [EmailService.send_synthesis_email,
      EmailService.resolve_participant_recipients, hparts, hp1, hp2, hsend]

/-- Witness for C6: two participants with addresses and no custom list; the
send succeeds and exactly those two addresses are recorded. -/
theorem C6_recipient_resolution_witness :
    EmailService.send_synthesis_email "c1"
      (some ⟨"c1", "Standup", ConversationStatus.completed, some "tx", some 1,
        none, none, none, none, [⟨"Alice", "alice@x.com"⟩, ⟨"Bob", "bob@x.com"⟩]⟩)
      (some ⟨"s1", "c1", "Sum", some 1, none, none, none, none, none, none,
        none, none, none, none, none⟩)
      (fun _ => Except.ok 5) "2026-02-03T04:05:06" none
    = (some { (⟨"s1", "c1", "Sum", some 1, none, none, none, none, none, none,
          none, none, none, none, none⟩ : Synthesis) with
          email_sent_at := some "2026-02-03T04:05:06",
          email_recipients := some ["alice@x.com", "bob@x.com"],
          email_delivery_status := some "sent" },
       Except.ok ⟨true,
         "Synthesis email sent to " ++ toString (["alice@x.com", "bob@x.com"]).length ++ " recipient(s)",
         ["alice@x.com", "bob@x.com"], 5⟩) :=
  C6_recipient_resolution.2.2.2 "c1" _ _ (fun _ => Except.ok 5)
    "2026-02-03T04:05:06" ⟨"Alice", "alice@x.com"⟩ ⟨"Bob", "bob@x.com"⟩ 5
    rfl (by decide) (by decide) rfl

/-- Counterexample to claim C7 as stated: two runs that differ only in the
timestamp the SMTP client reports (100 vs 200 epoch seconds) record the
identical synthesis row, whose `email_sent_at` is the service-side
`datetime.utcnow().isoformat()` string — the recorded value does not track
the provider-reported timestamp, which appears only in the returned
response. -/
theorem C7_counterexample :
    (EmailService.send_synthesis_email "c1"
      (some ⟨"c1", "Standup", ConversationStatus.completed, some "tx", some 1,
        none, none, none, none, []⟩)
      (some ⟨"s1", "c1", "Sum", some 1, none, none, none, none, none, none,
        none, none, none, none, none⟩)
      (fun _ => Except.ok 100) "2026-02-03T04:05:06" (some ["a@x.com"])
    = (some { (⟨"s1", "c1", "Sum", some 1, none, none, none, none, none, none,
          none, none, none, none, none⟩ : Synthesis) with
          email_sent_at := some "2026-02-03T04:05:06",
          email_recipients := some ["a@x.com"],
          email_delivery_status := some "sent" },
       Except.ok ⟨true,
         "Synthesis email sent to " ++ toString (1 : Nat) ++ " recipient(s)",
         ["a@x.com"], 100⟩)) ∧
    (EmailService.send_synthesis_email "c1"
      (some ⟨"c1", "Standup", ConversationStatus.completed, some "tx", some 1,
        none, none, none, none, []⟩)
      (some ⟨"s1", "c1", "Sum", some 1, none, none, none, none, none, none,
        none, none, none, none, none⟩)
      (fun _ => Except.ok 200) "2026-02-03T04:05:06" (some ["a@x.com"])
    = (some { (⟨"s1", "c1", "Sum", some 1, none, none, none, none, none, none,
          none, none, none, none, none⟩ : Synthesis) with
          email_sent_at := some "2026-02-03T04:05:06",
          email_recipients := some ["a@x.com"],
          email_delivery_status := some "sent" },
       Except.ok ⟨true,
         "Synthesis email sent to " ++ toString (1 : Nat) ++ " recipient(s)",
         ["a@x.com"], 200⟩)) ∧
    ((100 : ℚ) ≠ (200 : ℚ)) :=
  ⟨rfl, rfl, by norm_num⟩

/-- Claim C7 amended: on send failure the synthesis row records delivery
status "failed" and the exception is re-raised; on success it records status
"sent" with `email_sent_at` equal to the service-side
`datetime.utcnow().isoformat()` reading, while the provider-reported
timestamp is only returned in the response's `sent_at`. -/
theorem C7_amended_delivery_status :
    (∀ (conversation_id : String) (c : Conversation) (s : Synthesis)
        (send : List String → Except String ℚ) (utc : String)
        (l : List String) (e : String),
      l ≠ [] → send l = Except.error e →
      EmailService.send_synthesis_email conversation_id (some c) (some s) send
        utc (some l)
      = (some { s with email_delivery_status := some "failed" },
         Except.error e)) ∧
    (∀ (conversation_id : String) (c : Conversation) (s : Synthesis)
        (send : List String → Except String ℚ) (utc : String)
        (l : List String) (ts : ℚ),
      l ≠ [] → send l = Except.ok ts →
      EmailService.send_synthesis_email conversation_id (some c) (some s) send
        utc (some l)
      = (some { s with
            email_sent_at := some utc,
            email_recipients := some l,
            email_delivery_status := some "sent" },
         Except.ok ⟨true,
           "Synthesis email sent to " ++ toString l.length ++ " recipient(s)",
           l, ts⟩)) := by
  constructor
  · intro conversation_id c s send utc l e hl hsend
    simp [EmailService.send_synthesis_email, hl, hsend]
  · intro conversation_id c s send utc l ts hl hsend
    simp [EmailService.send_synthesis_email, hl, hsend]

/-- Witness for the amended C7: a failing send records "failed" and
re-raises. -/
theorem C7_amended_delivery_status_witness :
    EmailService.send_synthesis_email "c1"
      (some ⟨"c1", "Standup", ConversationStatus.completed, some "tx", some 1,
        none, none, none, none, []⟩)
      (some ⟨"s1", "c1", "Sum", some 1, none, none, none, none, none, none,
        none, none, none, none, none⟩)
      (fun _ => Except.error "connection reset") "2026-02-03T04:05:06"
      (some ["a@x.com"])
    = (some { (⟨"s1", "c1", "Sum", some 1, none, none, none, none, none, none,
          none, none, none, none, none⟩ : Synthesis) with
          email_delivery_status := some "failed" },
       Except.error "connection reset") :=
  C7_amended_delivery_status.1 "c1" _ _ (fun _ => Except.error "connection reset")
    "2026-02-03T04:05:06" ["a@x.com"] "connection reset" (by decide) rfl

/-- Claim C10: an empty custom recipient list is falsy in Python, so the call
behaves exactly as if no custom list had been supplied — participant
resolution applies, for every conversation, synthesis, send outcome and
clock. -/
theorem C10_empty_custom_recipients (conversation_id : String)
    (conv : Option Conversation) (synth : Option Synthesis)
    (send : List String → Except String ℚ) (utc : String) :
    EmailService.send_synthesis_email conversation_id conv synth send utc
      (some [])
    = EmailService.send_synthesis_email conversation_id conv synth send utc
      none := by
  cases conv <;> cases synth <;> rfl

/-- Claim C8: a transcript shorter than 50 characters after trimming makes
`synthesize_transcript` raise the validation error with zero upstream
attempts, independently of the upstream behaviour and retry limit — no
network call is made. -/
theorem C8_short_transcript_validation (t : String)
    (h : (pyStrip t).length < 50) :
    ∀ {ρ : Type} (beh : Nat → SynthApiOutcome ρ) (max_retries : Nat),
    OpenAISynthesisClient.synthesize_transcript t beh max_retries
    = ⟨0, [], Except.error "Transcript too short for synthesis (minimum 50 characters)"⟩ := by
  intro ρ beh max_retries
  rw [OpenAISynthesisClient.synthesize_transcript, if_pos (Or.inr h)]

/-- Witness for C8: the transcript "short" trims to fewer than 50 characters
and is rejected with zero attempts. -/
theorem C8_short_transcript_validation_witness :
    OpenAISynthesisClient.synthesize_transcript "short"
      (fun _ => (SynthApiOutcome.ok () : SynthApiOutcome Unit)) 3
    = ⟨0, [], Except.error "Transcript too short for synthesis (minimum 50 characters)"⟩ :=
  C8_short_transcript_validation "short" (by decide) _ 3

namespace BaseRepository

variable {α : Type}

/-- One step of the kwargs fold. -/
lemma apply_kwargs_cons (o : PyObject α) (kv : String × α)
    (rest : List (String × α)) :
    apply_kwargs o (kv :: rest)
    = apply_kwargs (if py_hasattr o kv.1 then py_setattr o kv.1 kv.2 else o) rest :=
  rfl

/-- Rewriting the value of one key leaves the attribute-name test of every
key unchanged. -/
lemma py_hasattr_map_if (o : PyObject α) (k1 k : String) (v : α) :
    py_hasattr (o.map (fun kv => if kv.1 = k1 then (k1, v) else kv)) k
    = py_hasattr o k := by
  induction o with
  | nil => rfl
  | cons kv2 rest ih =>
    by_cases h2 : kv2.1 = k1
    · simp only [List.map_cons, py_hasattr, List.any_cons] at *
      rw [ih, if_pos h2, ← h2]
    · simp only [List.map_cons, py_hasattr, List.any_cons] at *
      rw [ih, if_neg h2]

/-- `setattr` on an existing attribute preserves `hasattr` for every key. -/
lemma py_setattr_hasattr (o : PyObject α) (k1 : String) (v : α)
    (h : py_hasattr o k1 = true) (k : String) :
    py_hasattr (py_setattr o k1 v) k = py_hasattr o k := by
  rw [py_setattr, if_pos h, py_hasattr_map_if]

/-- The guarded kwargs fold never adds or removes attributes. -/
lemma apply_kwargs_hasattr (kwargs : List (String × α)) :
    ∀ (o : PyObject α) (k : String),
    py_hasattr (apply_kwargs o kwargs) k = py_hasattr o k := by
  induction kwargs with
  | nil => intro o k; rfl
  | cons kv rest ih =>
    intro o k
    rw [apply_kwargs_cons]
    by_cases h : py_hasattr o kv.1
    · rw [if_pos h, ih, py_setattr_hasattr o kv.1 kv.2 h]
    · rw [if_neg h, ih]

/-- Field names that are not attributes of the record have no effect on the
guarded update: the fold equals the fold over the known keys only. -/
lemma apply_kwargs_filter (kwargs : List (String × α)) :
    ∀ (o : PyObject α),
    apply_kwargs o kwargs
    = apply_kwargs o (kwargs.filter (fun kv => py_hasattr o kv.1)) := by
  induction kwargs with
  | nil => intro o; rfl
  | cons kv rest ih =>
    intro o
    by_cases h : py_hasattr o kv.1
    · rw [apply_kwargs_cons, if_pos h, List.filter_cons, if_pos h,
        apply_kwargs_cons, if_pos h, ih (py_setattr o kv.1 kv.2)]
      refine congrArg (apply_kwargs (py_setattr o kv.1 kv.2)) ?_
      refine List.filter_congr ?_
      intro kv2 _
      rw [py_setattr_hasattr o kv.1 kv.2 h]
    · rw [apply_kwargs_cons, if_neg h, List.filter_cons, if_neg (by simpa using h),
        ih o]

/-- When the identifier does not resolve, `update` returns `None` and leaves
the store unchanged. -/
lemma update_not_found [DecidableEq α] (idv : α) (kwargs : List (String × α)) :
    ∀ (store : List (PyObject α)), get_by_id store idv = none →
    update store idv kwargs = (none, store) := by
  intro store
  induction store with
  | nil => intro _; rfl
  | cons o rest ih =>
    intro h
    by_cases hp : py_getattr o "id" = some idv
    · exfalso
      simp [get_by_id, List.find?_cons, hp] at h
    · have hrest : get_by_id rest idv = none := by
        simpa [get_by_id, List.find?_cons, hp] using h
      simp [update, hp, ih hrest]

/-- When the identifier resolves to record `o`, `update` returns the guarded
rewrite of `o` — in particular it returns a record, never an error. -/
lemma update_found [DecidableEq α] (idv : α) (kwargs : List (String × α)) :
    ∀ (store : List (PyObject α)) (o : PyObject α),
    get_by_id store idv = some o →
    (update store idv kwargs).1 = some (apply_kwargs o kwargs) := by
  intro store
  induction store with
  | nil => intro o h; simp [get_by_id] at h
  | cons o2 rest ih =>
    intro o h
    by_cases hp : py_getattr o2 "id" = some idv
    · have ho : o2 = o := by simpa [get_by_id, List.find?_cons, hp] using h
      subst ho
      simp [update, hp]
    · have hrest : get_by_id rest idv = some o := by
        simpa [get_by_id, List.find?_cons, hp] using h
      simp [update, hp, ih o hrest]

/-- After deleting the only record carrying an identifier, the identifier no
longer resolves. -/
lemma get_by_id_delete [DecidableEq α] (idv : α) :
    ∀ (store : List (PyObject α)),
    store.countP (fun o => py_getattr o "id" = some idv) ≤ 1 →
    get_by_id (delete store idv).2 idv = none := by
  intro store
  induction store with
  | nil => intro _; rfl
  | cons o rest ih =>
    intro h
    by_cases hp : py_getattr o "id" = some idv
    · rw [List.countP_cons_of_pos _ _ (by simpa using hp)] at h
      have hcount : rest.countP (fun o => py_getattr o "id" = some idv) = 0 := by
        omega
      have hnone : ∀ o2 ∈ rest, ¬(py_getattr o2 "id" = some idv) := by
        intro o2 ho2
        have := List.countP_eq_zero.mp hcount o2 ho2
        simpa using this
      rw [delete]
      simp only [if_pos hp]
      rw [get_by_id, List.find?_eq_none]
      intro o2 ho2
      simpa using hnone o2 ho2
    · rw [List.countP_cons_of_neg _ _ (by simpa using hp)] at h
      rw [delete]
      simp only [if_neg hp]
      simpa [get_by_id, List.find?_cons, hp] using ih h

end BaseRepository

/-- Claim C9: `BaseRepository.update` on an identifier that does not resolve
returns `None` and leaves the store unchanged; on an identifier that
resolves it always returns a record (no exception), applying only the field
names that are attributes of the record and silently ignoring the rest; and
after the only record with a given identifier is deleted, an update against
that identifier is a silent no-op. -/
theorem C9_update_semantics {α : Type} [DecidableEq α] :
    (∀ (store : List (PyObject α)) (idv : α) (kwargs : List (String × α)),
      BaseRepository.get_by_id store idv = none →
      BaseRepository.update store idv kwargs = (none, store)) ∧
    (∀ (store : List (PyObject α)) (idv : α) (kwargs : List (String × α))
        (o : PyObject α),
      BaseRepository.get_by_id store idv = some o →
      (BaseRepository.update store idv kwargs).1
        = some (BaseRepository.apply_kwargs o kwargs)) ∧
    (∀ (o : PyObject α) (kwargs : List (String × α)),
      BaseRepository.apply_kwargs o kwargs
      = BaseRepository.apply_kwargs o
          (kwargs.filter (fun kv => BaseRepository.py_hasattr o kv.1))) ∧
    (∀ (store : List (PyObject α)) (idv : α) (kwargs : List (String × α)),
      store.countP (fun o => BaseRepository.py_getattr o "id" = some idv) ≤ 1 →
      BaseRepository.update (BaseRepository.delete store idv).2 idv kwargs
      = (none, (BaseRepository.delete store idv).2)) := by
  refine ⟨?_, ?_, ?_, ?_⟩
  · intro store idv kwargs h
    exact BaseRepository.update_not_found idv kwargs store h
  · intro store idv kwargs o h
    exact BaseRepository.update_found idv kwargs store o h
  · intro o kwargs
    exact BaseRepository.apply_kwargs_filter kwargs o
  · intro store idv kwargs h
    exact BaseRepository.update_not_found idv kwargs _
      (BaseRepository.get_by_id_delete idv store h)

/-- Witness for C9: a one-record store; updating a missing identifier is a
no-op, and an update mixing a known field with an unknown one applies only
the known field. -/
theorem C9_update_semantics_witness :
    (BaseRepository.update [[("id", "c1"), ("status", "pending")]] "zzz"
      [("status", "done")]
      = (none, [[("id", "c1"), ("status", "pending")]])) ∧
    ((BaseRepository.update [[("id", "c1"), ("status", "pending")]] "c1"
      [("status", "done"), ("bogus_field", "x")]).1
      = some (BaseRepository.apply_kwargs [("id", "c1"), ("status", "pending")]
          [("status", "done"), ("bogus_field", "x")])) ∧
    (BaseRepository.update
      (BaseRepository.delete [[("id", "c1"), ("status", "pending")]] "c1").2 "c1"
      [("status", "done")]
      = (none, (BaseRepository.delete [[("id", "c1"), ("status", "pending")]] "c1").2)) :=
  ⟨C9_update_semantics.1 [[("id", "c1"), ("status", "pending")]] "zzz"
      [("status", "done")] (by decide),
   C9_update_semantics.2.1 [[("id", "c1"), ("status", "pending")]] "c1"
      [("status", "done"), ("bogus_field", "x")] [("id", "c1"), ("status", "pending")]
      (by decide),
   C9_update_semantics.2.2.2 [[("id", "c1"), ("status", "pending")]] "c1"
      [("status", "done")] (by decide)⟩

end Skynet
